import Mathlib

/-!
Shallow embedding of the core of the Excel-Mock-Interviewer repository
(formula parser, grid differ, action tracker, task evaluator, session
state machine, analytics aggregation, cell-reference utilities), together
with theorems settling the frozen claims about it.

Strings from the source are modelled as `String` / `List Char`; JavaScript
numbers are modelled as `Int` or `Rat` (with a comment wherever a
floating-point corner such as `NaN` or `Infinity` could arise in the
source); `undefined` / absent values are modelled with `Option`.
-/

/-! ## Formula Parser (src/lib/spreadsheet-utils.ts, `FormulaParser`) -/

/-- Character class `[A-Z]`. -/
def isUpperAZ (c : Char) : Bool := 'A' ≤ c && c ≤ 'Z'

/-- Character class `[0-9]`. -/
def isDigit09 (c : Char) : Bool := '0' ≤ c && c ≤ '9'

/-- Character class `[A-Z0-9_]` (tail of a function-name token). -/
def isFuncNameChar (c : Char) : Bool := isUpperAZ c || isDigit09 c || c == '_'

/-- Whitespace as matched by the `\s` in the function regex
`([A-Z][A-Z0-9_]*)\s*\(` (the common whitespace characters). -/
def isJsSpace (c : Char) : Bool := c == ' ' || c == '\t' || c == '\n' || c == '\r'

/-- Try to match the regex `([A-Z][A-Z0-9_]*)\s*\(` at the head of the
input; on success return the captured function name and the rest of the
input after the `(` (the regex `lastIndex` position).  The regex is
deterministic here: `[A-Z0-9_]`, whitespace and `(` are pairwise disjoint
classes, so greedy matching never backtracks. -/
def matchFunctionAt : List Char → Option (String × List Char)
  | [] => none
  | c :: rest =>
    if isUpperAZ c then
      let name := rest.takeWhile isFuncNameChar
      let rest1 := rest.dropWhile isFuncNameChar
      let rest2 := rest1.dropWhile isJsSpace
      match rest2 with
      | '(' :: rest3 => some (String.mk (c :: name), rest3)
      | _ => none
    else none

theorem dropWhile_length_le (p : Char → Bool) (l : List Char) :
    (l.dropWhile p).length ≤ l.length := by
  induction l with
  | nil => simp
  | cons a t ih =>
    by_cases hp : p a
    · rw [List.dropWhile_cons_of_pos hp]; simp; omega
    · rw [List.dropWhile_cons_of_neg hp]

theorem matchFunctionAt_length {l : List Char} {s : String} {r : List Char}
    (h : matchFunctionAt l = some (s, r)) : r.length < l.length := by
  match l with
  | [] => simp [matchFunctionAt] at h
  | c :: rest =>
    simp only [matchFunctionAt] at h
    split at h
    · split at h
      next rest3 heq =>
        simp only [Option.some.injEq, Prod.mk.injEq] at h
        obtain ⟨-, rfl⟩ := h
        have e1 := congrArg List.length heq
        have l1 := dropWhile_length_le isFuncNameChar rest
        have l2 := dropWhile_length_le isJsSpace (rest.dropWhile isFuncNameChar)
        simp at e1
        simp
        omega
      next => exact absurd h (by simp)
    · exact absurd h (by simp)

/-- Extract every function name, scanning left to right exactly as
`functionRegex.exec` in a loop does: on a match, resume after the
consumed `(`, otherwise advance one character.  The `fuel` argument
only bounds the number of scanner steps; each step consumes at least
one character (`matchFunctionAt_length`), so with `fuel = l.length`
(as in `extractFunctions`) it is never exhausted. -/
def extractFunctionsFuel : Nat → List Char → List String
  | 0, _ => []
  | _ + 1, [] => []
  | fuel + 1, c :: rest =>
    match matchFunctionAt (c :: rest) with
    | some (name, rest2) => name :: extractFunctionsFuel fuel rest2
    | none => extractFunctionsFuel fuel rest

def extractFunctions (l : List Char) : List String := extractFunctionsFuel l.length l

/-- Try to match `[A-Z]+[0-9]+` at the head of the input, returning the
matched characters and the rest.  Letters and digits are disjoint, so the
greedy match is deterministic. -/
def matchRefPart (l : List Char) : Option (List Char × List Char) :=
  let letters := l.takeWhile isUpperAZ
  let r1 := l.dropWhile isUpperAZ
  let digits := r1.takeWhile isDigit09
  let r2 := r1.dropWhile isDigit09
  if letters.isEmpty || digits.isEmpty then none
  else some (letters ++ digits, r2)

theorem takeWhile_ne_nil_length_dropWhile_lt {l : List Char} {p : Char → Bool}
    (h : l.takeWhile p ≠ []) : (l.dropWhile p).length < l.length := by
  match l with
  | [] => simp at h
  | a :: t =>
    by_cases hp : p a
    · rw [List.dropWhile_cons_of_pos hp]
      have := dropWhile_length_le p t
      simp; omega
    · rw [List.takeWhile_cons_of_neg hp] at h; exact absurd rfl h

theorem matchRefPart_length {l : List Char} {m r : List Char}
    (h : matchRefPart l = some (m, r)) : r.length < l.length := by
  simp only [matchRefPart] at h
  split at h
  · exact absurd h (by simp)
  next hcond =>
    simp only [Option.some.injEq, Prod.mk.injEq] at h
    obtain ⟨-, rfl⟩ := h
    have hletters : l.takeWhile isUpperAZ ≠ [] := by
      intro hnil
      simp [List.isEmpty_iff, hnil] at hcond
    have hdigits : (l.dropWhile isUpperAZ).takeWhile isDigit09 ≠ [] := by
      intro hnil
      simp [List.isEmpty_iff, hnil] at hcond
    have h1 := takeWhile_ne_nil_length_dropWhile_lt hletters
    have h2 := takeWhile_ne_nil_length_dropWhile_lt hdigits
    omega

/-- Try to match the reference regex `([A-Z]+[0-9]+(?::[A-Z]+[0-9]+)?)`
at the head of the input; the optional `:COLROW` part is taken greedily
when it matches. -/
def matchRefAt (l : List Char) : Option (String × List Char) :=
  match matchRefPart l with
  | none => none
  | some (m1, r) =>
    match r with
    | ':' :: r2 =>
      match matchRefPart r2 with
      | some (m2, r3) => some (String.mk (m1 ++ ':' :: m2), r3)
      | none => some (String.mk m1, r)
    | _ => some (String.mk m1, r)

theorem matchRefAt_length {l : List Char} {s : String} {r : List Char}
    (h : matchRefAt l = some (s, r)) : r.length < l.length := by
  simp only [matchRefAt] at h
  split at h
  · exact absurd h (by simp)
  next m1 r1 hpart =>
    have h1 := matchRefPart_length hpart
    split at h
    next r2 =>
      split at h
      next m2 r3 hpart2 =>
        have h2 := matchRefPart_length hpart2
        simp only [Option.some.injEq, Prod.mk.injEq] at h
        obtain ⟨-, rfl⟩ := h
        simp at h1
        omega
      next =>
        simp only [Option.some.injEq, Prod.mk.injEq] at h
        obtain ⟨-, rfl⟩ := h
        omega
    next =>
      simp only [Option.some.injEq, Prod.mk.injEq] at h
      obtain ⟨-, rfl⟩ := h
      omega

/-- Extract every cell reference, scanning left to right as
`referenceRegex.exec` in a loop does (`fuel` as in
`extractFunctionsFuel`, never exhausted from `extractReferences` by
`matchRefAt_length`). -/
def extractReferencesFuel : Nat → List Char → List String
  | 0, _ => []
  | _ + 1, [] => []
  | fuel + 1, c :: rest =>
    match matchRefAt (c :: rest) with
    | some (s, rest2) => s :: extractReferencesFuel fuel rest2
    | none => extractReferencesFuel fuel rest

def extractReferences (l : List Char) : List String := extractReferencesFuel l.length l

/-- Per-function complexity weight table; unknown functions default to 2
(`complexityMap[functionName] || 2`; no table entry is zero, so the `||`
never masks a present entry). -/
def getFunctionComplexity (f : String) : Int :=
  if f = "SUM" then 1
  else if f = "AVERAGE" then 1
  else if f = "COUNT" then 1
  else if f = "MAX" then 1
  else if f = "MIN" then 1
  else if f = "IF" then 2
  else if f = "SUMIF" then 2
  else if f = "COUNTIF" then 2
  else if f = "VLOOKUP" then 3
  else if f = "HLOOKUP" then 3
  else if f = "INDEX" then 3
  else if f = "MATCH" then 3
  else if f = "INDIRECT" then 4
  else if f = "OFFSET" then 4
  else if f = "SUMPRODUCT" then 4
  else if f = "ARRAY" then 5
  else 2

/-- The parenthesis-balance loop of `validateFormula`: increment on `(`,
decrement on `)`, fail as soon as the counter goes negative, succeed iff
it ends at zero. -/
def checkParens : List Char → Int → Bool
  | [], opened => opened == 0
  | c :: rest, opened =>
    let o1 := if c == '(' then opened + 1 else opened
    let o2 := if c == ')' then o1 - 1 else o1
    if o2 < 0 then false else checkParens rest o2

/-- `FormulaParser.validateFormula` (the `try` around the loop can never
catch anything: the loop body is total). -/
def validateFormula (formula : String) : Bool := checkParens formula.data 0

structure ParsedFormula where
  functions : List String
  references : List String
  isValid : Bool
  complexity : Int
deriving DecidableEq, Repr

/-- `FormulaParser.parseFormula`.  The guard is
`!formula || !formula.startsWith('=')` (the empty string is falsy).  The
source accumulates `complexity` inside the extraction loop; summing the
weights over the extracted list yields the same value. -/
def parseFormula (formula : String) : ParsedFormula :=
  match formula.data with
  | '=' :: _ =>
    { functions := extractFunctions formula.data
      references := extractReferences formula.data
      isValid := validateFormula formula
      complexity := ((extractFunctions formula.data).map getFunctionComplexity).sum }
  | _ => ⟨[], [], false, 0⟩

/-! ## Cell-reference utilities (src/lib/spreadsheet-utils.ts, `CellUtils`) -/

/-- The loop of `CellUtils.columnToLetter`: while `col >= 0`, prepend
`String.fromCharCode(65 + col % 26)` and update `col = floor(col/26) - 1`
(all division operands are nonnegative, so JS `Math.floor` division and
Lean integer division agree).  `fuel` only bounds the iteration count;
each iteration strictly decreases `(col + 1).toNat`, so starting with
`fuel = (col + 1).toNat` (as `columnLetters` does) it is never
exhausted. -/
def columnToLetterFuel : Nat → Int → List Char → List Char
  | 0, _, result => result
  | fuel + 1, col, result =>
    if 0 ≤ col then
      columnToLetterFuel fuel (col / 26 - 1)
        (Char.ofNat (65 + (col % 26).toNat) :: result)
    else result

def columnLetters (col : Int) : List Char :=
  columnToLetterFuel (col + 1).toNat col []

/-- `CellUtils.columnToLetter`. -/
def columnToLetter (col : Int) : String := String.mk (columnLetters col)

/-- `CellUtils.letterToColumn`: fold `result = result * 26 +
(charCodeAt(i) - 64)` over the letters, then subtract 1. -/
def letterToColumn (letter : String) : Int :=
  (letter.data.foldl (fun result c => result * 26 + ((c.toNat : Int) - 64)) 0) - 1

/-! ## Spreadsheet data model (src/unnamed/part_005, `@/types/excel`) -/

/-- A scalar cell value (`v?: any` in `CellData`); the snapshots hold
JSON scalars.  JS numbers are modelled as rationals. -/
inductive CellValue where
  | str (s : String)
  | num (q : ℚ)
  | boolean (b : Bool)
deriving DecidableEq, Repr

structure CellTypeData where
  fa : String
  t : String
deriving DecidableEq, Repr

structure CellStyleData where
  bg : Option String := none
  fc : Option String := none
  ff : Option String := none
  fs : Option ℚ := none
  bl : Option ℚ := none
  it : Option ℚ := none
  cl : Option ℚ := none
  ul : Option ℚ := none
  ht : Option ℚ := none
  vt : Option ℚ := none
deriving DecidableEq, Repr

/-- `CellData` (all fields optional). -/
structure CellData where
  v : Option CellValue := none
  f : Option String := none
  ct : Option CellTypeData := none
  s : Option CellStyleData := none
  m : Option String := none
deriving DecidableEq, Repr

/-- `SpreadsheetSheet`.  A grid slot holds `none` for an explicit `null`
entry; a read past the end of a (possibly jagged) row or past the last
row yields JS `undefined`, modelled by the outer `Option` of `cellAt`.
The `config` field is never read by the analyzer and is omitted. -/
structure SpreadsheetSheet where
  name : String := ""
  data : List (List (Option CellData))
deriving DecidableEq, Repr

/-- `SpreadsheetData` (the `metadata` field is never read by the
analyzer and is omitted). -/
structure SpreadsheetData where
  sheets : List SpreadsheetSheet
deriving DecidableEq, Repr

/-- `sheet.data[r]?.[c]`: outer `none` = `undefined`, `some none` = a
`null` grid entry, `some (some cell)` = a cell object. -/
def cellAt (sheet : SpreadsheetSheet) (r c : Nat) : Option (Option CellData) :=
  match sheet.data[r]? with
  | none => none
  | some row => row[c]?

/-! ## Grid differ (src/lib/spreadsheet-utils.ts, `SpreadsheetAnalyzer`) -/

/-- `initialCell?.v` — `undefined` unless the slot holds a cell object
with a defined `v`. -/
def entryValue : Option (Option CellData) → Option CellValue
  | some (some c) => c.v
  | _ => none

/-- `finalCell?.f`. -/
def entryFormula : Option (Option CellData) → Option String
  | some (some c) => c.f
  | _ => none

/-- JS truthiness of `finalCell?.f` (the empty string is falsy). -/
def jsTruthyStr : Option String → Bool
  | some s => s ≠ ""
  | none => false

structure CellChange where
  cell : String
  oldValue : Option CellValue
  newValue : Option CellValue
  formula : Option String
deriving DecidableEq, Repr

/-- `SpreadsheetAnalyzer.getCellReference` duplicates the
`columnToLetter` loop and appends the 1-based row number. -/
def analyzerCellReference (row col : Nat) : String :=
  String.mk (columnLetters (col : Int)) ++ toString (row + 1)

/-- `Math.max(initialSheet.data.length, finalSheet.data.length)`. -/
def sheetMaxRows (isheet fsheet : SpreadsheetSheet) : Nat :=
  max isheet.data.length fsheet.data.length

/-- `sheet.data[0]?.length || 0`. -/
def firstRowLen (sheet : SpreadsheetSheet) : Nat :=
  match sheet.data[0]? with
  | some row => row.length
  | none => 0

/-- `Math.max(initialSheet.data[0]?.length || 0, finalSheet.data[0]?.length || 0)`
— the column bound of the comparison loop comes from the FIRST rows only. -/
def sheetMaxCols (isheet fsheet : SpreadsheetSheet) : Nat :=
  max (firstRowLen isheet) (firstRowLen fsheet)

/-- The change record pushed for position `(r, c)`:
`{ cell, oldValue: initialCell?.v, newValue: finalCell?.v, formula: finalCell?.f }`. -/
def changeAt (isheet fsheet : SpreadsheetSheet) (r c : Nat) : CellChange :=
  { cell := analyzerCellReference r c
    oldValue := entryValue (cellAt isheet r c)
    newValue := entryValue (cellAt fsheet r c)
    formula := entryFormula (cellAt fsheet r c) }

/-- The nested `for r` / `for c` comparison loops of
`compareSpreadsheets` for one sheet pair: a cell is recorded exactly when
`JSON.stringify(initialCell) !== JSON.stringify(finalCell)`, i.e. when
the two slots differ structurally (`undefined`, `null` and cell objects
serialize pairwise differently; two structurally equal objects are
assumed to serialize identically). -/
def compareSheetChanges (isheet fsheet : SpreadsheetSheet) : List CellChange :=
  (List.range (sheetMaxRows isheet fsheet)).flatMap fun r =>
    (List.range (sheetMaxCols isheet fsheet)).filterMap fun c =>
      if cellAt isheet r c ≠ cellAt fsheet r c then
        some (changeAt isheet fsheet r c)
      else none

/-- The sheet pairs visited by the sheet loop: indices up to
`Math.max(initial.sheets.length, final.sheets.length)`, skipping an index
(`continue`) when either side has no sheet there. -/
def comparePairs (initial final : SpreadsheetData) : List (SpreadsheetSheet × SpreadsheetSheet) :=
  (List.range (max initial.sheets.length final.sheets.length)).filterMap fun idx =>
    match initial.sheets[idx]?, final.sheets[idx]? with
    | some isheet, some fsheet => some (isheet, fsheet)
    | _, _ => none

/-- The `for c` loop body of `calculateAccuracy` over one expected row
(starting at column index `c0`), threading the `(totalCells,
correctCells)` accumulator.  A cell is graded when the expected slot
holds a cell with `v !== undefined`; it is correct when the actual slot
holds a cell (truthy) whose `v` is strictly equal. -/
def accuracyRowCount (asheet : SpreadsheetSheet) (r : Nat) :
    Nat → List (Option CellData) → Nat × Nat → Nat × Nat
  | _, [], acc => acc
  | c, ecell :: rest, acc =>
    let acc2 :=
      match ecell with
      | some cell =>
        match cell.v with
        | some ev =>
          let correct :=
            match cellAt asheet r c with
            | some (some acell) => if acell.v = some ev then acc.2 + 1 else acc.2
            | _ => acc.2
          (acc.1 + 1, correct)
        | none => acc
      | none => acc
    accuracyRowCount asheet r (c + 1) rest acc2

/-- The `for r` loop of `calculateAccuracy` over one expected sheet. -/
def accuracySheetCount (asheet : SpreadsheetSheet) :
    Nat → List (List (Option CellData)) → Nat × Nat → Nat × Nat
  | _, [], acc => acc
  | r, row :: rest, acc =>
    accuracySheetCount asheet (r + 1) rest (accuracyRowCount asheet r 0 row acc)

/-- The sheet loop of `calculateAccuracy`: an expected sheet with no
corresponding actual sheet is skipped entirely (`continue`), so none of
its cells are graded. -/
def accuracyCount (actual : SpreadsheetData) :
    Nat → List SpreadsheetSheet → Nat × Nat → Nat × Nat
  | _, [], acc => acc
  | si, esheet :: rest, acc =>
    let acc2 :=
      match actual.sheets[si]? with
      | some asheet => accuracySheetCount asheet 0 esheet.data acc
      | none => acc
    accuracyCount actual (si + 1) rest acc2

/-- `SpreadsheetAnalyzer.calculateAccuracy`. -/
def calculateAccuracy (actual expected : SpreadsheetData) : ℚ :=
  let counts := accuracyCount actual 0 expected.sheets (0, 0)
  if counts.1 > 0 then ((counts.2 : ℚ) / (counts.1 : ℚ)) * 100 else 0

/-- `needle` occurs as a contiguous run inside `haystack`
(JS `String.prototype.includes`). -/
def containsSeq (needle : List Char) : List Char → Bool
  | [] => needle.isEmpty
  | c :: t => needle.isPrefixOf (c :: t) || containsSeq needle t

/-- `SpreadsheetAnalyzer.calculateEfficiency`. -/
def calculateEfficiency (changedCells : List CellChange) (formulas : List String) : ℚ :=
  let baseScore : ℚ := 100
  let penaltyPerExtraOperation : ℚ := 2
  let bonusForOptimalFormulas : ℚ := 10
  let score :=
    if changedCells.length > 10 then
      baseScore - ((changedCells.length : ℚ) - 10) * penaltyPerExtraOperation
    else baseScore
  let efficientFunctions : List String := ["SUMPRODUCT", "INDEX", "MATCH", "VLOOKUP"]
  let usedEfficientFunctions :=
    formulas.any fun formula => efficientFunctions.any fun func => containsSeq func.data formula.data
  let score2 := if usedEfficientFunctions then score + bonusForOptimalFormulas else score
  max 0 (min 100 score2)

structure CompareResult where
  changedCells : List CellChange
  addedFormulas : List String
  accuracy : ℚ
  efficiency : ℚ
deriving DecidableEq, Repr

/-- `SpreadsheetAnalyzer.compareSpreadsheets`.  `addedFormulas` is pushed
inside the same loop, once per changed cell whose final slot has a truthy
`f`; collecting it from the changed-cell list in order yields the same
list. -/
def compareSpreadsheets (initial final : SpreadsheetData)
    (expected : Option SpreadsheetData) : CompareResult :=
  let changedCells :=
    (comparePairs initial final).flatMap fun p => compareSheetChanges p.1 p.2
  let addedFormulas :=
    changedCells.filterMap fun ch =>
      if jsTruthyStr ch.formula then ch.formula else none
  match expected with
  | some exp =>
    { changedCells := changedCells
      addedFormulas := addedFormulas
      accuracy := calculateAccuracy final exp
      efficiency := calculateEfficiency changedCells addedFormulas }
  | none =>
    { changedCells := changedCells
      addedFormulas := addedFormulas
      accuracy := 0
      efficiency := 0 }

/-! ## Action tracker (src/lib/spreadsheet-utils.ts, `ActionTracker`)

Each method is modelled as an explicit state transformer over the
private `actions` array: it returns the value the method returns
together with the array contents after the call. -/

inductive ActionType where
  | cell_edit | formula_input | format_change
  | insert_row | insert_column | delete_row | delete_column
  | merge_cells | unmerge_cells | create_chart | modify_chart
  | sort_data | filter_data | pivot_table
  | copy | paste | cut | undo | redo
deriving DecidableEq, Repr

/-- `UserAction` (`action_data` is an arbitrary payload the tracker
never reads; omitted). -/
structure UserAction where
  timestamp : Int
  type : ActionType
  cell_reference : Option String := none
  old_value : Option CellValue := none
  new_value : Option CellValue := none
  formula : Option String := none
  range : Option String := none
deriving DecidableEq, Repr

def addAction (state : List UserAction) (action : UserAction) :
    Unit × List UserAction := ((), state ++ [action])

/-- `getActions` returns a fresh copy (`[...this.actions]`). -/
def getActions (state : List UserAction) : List UserAction × List UserAction :=
  (state, state)

def getActionsByType (state : List UserAction) (t : ActionType) :
    List UserAction × List UserAction :=
  (state.filter fun action => action.type == t, state)

/-- `arr.filter((x, i) => arr.indexOf(x) === i)` — deduplication keeping
the first occurrence. -/
def dedupFirst : List String → List String → List String
  | [], _ => []
  | x :: rest, seen =>
    if x ∈ seen then dedupFirst rest seen else x :: dedupFirst rest (x :: seen)

/-- `getFormulasUsed`: `formula_input` actions with a truthy `formula`,
deduplicated keeping first occurrences. -/
def getFormulasUsed (state : List UserAction) : List String × List UserAction :=
  (dedupFirst
    ((state.filter fun action =>
        action.type == ActionType.formula_input && jsTruthyStr action.formula).map
      fun action => action.formula.getD "") [], state)

/-- `getFunctionsUsed`: concatenates the parsed `functions` of every
distinct formula, then `Array.from(new Set(...))` (first-occurrence
order). -/
def getFunctionsUsed (state : List UserAction) : List String × List UserAction :=
  (dedupFirst
    ((getFormulasUsed state).1.flatMap fun formula => (parseFormula formula).functions) [],
   state)

def getTimeSpent (state : List UserAction) : Int × List UserAction :=
  (match state with
   | [] => 0
   | a :: rest =>
     ((a :: rest).getLast (List.cons_ne_nil a rest)).timestamp - a.timestamp,
   state)

structure EfficiencyMetrics where
  totalActions : Nat
  formulaActions : Nat
  editActions : Nat
  averageTimeBetweenActions : ℚ
deriving DecidableEq, Repr

/-- `getEfficiencyMetrics` (the average is 0 when fewer than two actions
were recorded). -/
def getEfficiencyMetrics (state : List UserAction) :
    EfficiencyMetrics × List UserAction :=
  ({ totalActions := state.length
     formulaActions := (getActionsByType state ActionType.formula_input).1.length
     editActions := (getActionsByType state ActionType.cell_edit).1.length
     averageTimeBetweenActions :=
       if state.length > 1 then
         ((getTimeSpent state).1 : ℚ) / ((state.length : ℚ) - 1)
       else 0 },
   state)

/-- `clear` resets the array to `[]`. -/
def clearActions (state : List UserAction) : Unit × List UserAction := ((), [])

/-! ## Task evaluator (src/lib/spreadsheet-utils.ts, `TaskEvaluator`) -/

/-- `TaskEvaluationCriteria` (the optional `expected_charts` field is
never read by the evaluator and is omitted). -/
structure TaskEvaluationCriteria where
  formula_accuracy_weight : ℚ := 0
  efficiency_weight : ℚ := 0
  presentation_weight : ℚ := 0
  best_practices_weight : ℚ := 0
  required_formulas : List String := []
  optional_formulas : List String := []
deriving DecidableEq, Repr

/-- `TaskEvaluator.calculateBestPracticesScore`, over the tracker state
built from the user actions. -/
def calculateBestPracticesScore (state : List UserAction)
    (criteria : TaskEvaluationCriteria) : ℚ :=
  let functions := (getFunctionsUsed state).1
  let requiredFunctions := criteria.required_formulas
  let missingRequired := requiredFunctions.filter fun func => !(functions.contains func)
  let score1 : ℚ := 100 - (missingRequired.length : ℚ) * 20
  let optionalFunctions := criteria.optional_formulas
  let usedOptional := optionalFunctions.filter fun func => functions.contains func
  let score2 := score1 + (usedOptional.length : ℚ) * 10
  let metrics := (getEfficiencyMetrics state).1
  let score3 := if metrics.averageTimeBetweenActions < 1000 then score2 - 10 else score2
  max 0 (min 100 score3)

/-! ## Session state machine (src/lib/excel-interview-state-manager.ts)

Timestamps (`Date` / `Date.now()`) are modelled as epoch-millisecond
integers supplied explicitly as a `now` argument.  The per-state
transition callbacks are modelled as session-preserving: a fresh manager
has none, the hooks are awaited with their errors caught and logged, and
reentrant mutation of the session from inside a hook is outside this
model. -/

inductive ExcelInterviewState where
  | introduction | conceptual_questions | practical_tasks
  | feedback_generation | conclusion
deriving DecidableEq, Repr

/-- `StateData` (`current_question_index`, `current_task_index` and
`feedback_generated` are optional in the interface). -/
structure StateData where
  current_question_index : Option Nat := none
  current_task_index : Option Nat := none
  questions_completed : Nat := 0
  tasks_completed : Nat := 0
  total_questions : Nat := 0
  total_tasks : Nat := 0
  feedback_generated : Option Bool := none
deriving DecidableEq, Repr

/-- The `data?` argument of `transition_to`: an object whose `trigger`
key feeds the transition record and whose remaining keys are spread onto
`state_data` (`{ ...state_data, ...data }`).  Only overrides of the
known `StateData` fields are modelled; other keys are never read. -/
structure TransitionArg where
  trigger : Option String := none
  current_question_index : Option (Option Nat) := none
  current_task_index : Option (Option Nat) := none
  questions_completed : Option Nat := none
  tasks_completed : Option Nat := none
  total_questions : Option Nat := none
  total_tasks : Option Nat := none
  feedback_generated : Option (Option Bool) := none
deriving DecidableEq, Repr

structure StateTransition where
  from_state : ExcelInterviewState
  to_state : ExcelInterviewState
  timestamp : Int
  trigger : String
  data : Option TransitionArg := none
deriving DecidableEq, Repr

structure ConceptualProgress where
  questions_answered : Nat := 0
  correct_answers : Nat := 0
  total_score : ℚ := 0
  category_scores : List (String × ℚ) := []
  time_spent : ℚ := 0
deriving DecidableEq, Repr

structure PracticalProgress where
  tasks_completed : Nat := 0
  total_accuracy_score : ℚ := 0
  total_efficiency_score : ℚ := 0
  total_best_practices_score : ℚ := 0
  time_spent : ℚ := 0
  functions_demonstrated : List String := []
deriving DecidableEq, Repr

structure ExcelInterviewSession where
  id : Int := 0
  response_id : Int := 0
  current_state : ExcelInterviewState
  state_data : StateData
  conceptual_progress : ConceptualProgress := {}
  practical_progress : PracticalProgress := {}
  start_time : Int := 0
  end_time : Option Int := none
  total_duration : Option Int := none
  state_history : List StateTransition
deriving DecidableEq, Repr

/-- `getValidTransitions`: the strictly linear five-phase flow;
`conclusion` is terminal. -/
def getValidTransitions : ExcelInterviewState → List ExcelInterviewState
  | .introduction => [.conceptual_questions]
  | .conceptual_questions => [.practical_tasks]
  | .practical_tasks => [.feedback_generation]
  | .feedback_generation => [.conclusion]
  | .conclusion => []

/-- `can_transition`. -/
def can_transition (session : ExcelInterviewSession)
    (to_state : ExcelInterviewState) : Bool :=
  (getValidTransitions session.current_state).contains to_state

/-- `{ ...state_data, ...data }` restricted to the known fields. -/
def mergeStateData (sd : StateData) (d : TransitionArg) : StateData :=
  { current_question_index := d.current_question_index.getD sd.current_question_index
    current_task_index := d.current_task_index.getD sd.current_task_index
    questions_completed := d.questions_completed.getD sd.questions_completed
    tasks_completed := d.tasks_completed.getD sd.tasks_completed
    total_questions := d.total_questions.getD sd.total_questions
    total_tasks := d.total_tasks.getD sd.total_tasks
    feedback_generated := d.feedback_generated.getD sd.feedback_generated }

/-- `updateStateData`: per-state counter resets, then the optional
`data` spread. -/
def updateStateData (session : ExcelInterviewSession)
    (new_state : ExcelInterviewState) (data : Option TransitionArg)
    (now : Int) : ExcelInterviewSession :=
  let s1 :=
    match new_state with
    | .conceptual_questions =>
      { session with state_data :=
          { session.state_data with current_question_index := some 0, questions_completed := 0 } }
    | .practical_tasks =>
      { session with state_data :=
          { session.state_data with current_task_index := some 0, tasks_completed := 0 } }
    | .feedback_generation => session
    | .conclusion =>
      { session with end_time := some now, total_duration := some (now - session.start_time) }
    | .introduction => session
  match data with
  | some d => { s1 with state_data := mergeStateData s1.state_data d }
  | none => s1

/-- `data?.trigger || 'automatic'` (an empty trigger string is falsy and
also falls back). -/
def triggerOf (data : Option TransitionArg) : String :=
  match data with
  | some d =>
    match d.trigger with
    | some s => if s = "" then "automatic" else s
    | none => "automatic"
  | none => "automatic"

/-- `transition_to`: validate, record the transition, update
`current_state` and the state-specific data; returns the boolean result
together with the session after the call. -/
def transition_to (session : ExcelInterviewSession)
    (new_state : ExcelInterviewState) (data : Option TransitionArg)
    (now : Int) : Bool × ExcelInterviewSession :=
  if !(can_transition session new_state) then (false, session)
  else
    let transition : StateTransition :=
      { from_state := session.current_state
        to_state := new_state
        timestamp := now
        trigger := triggerOf data
        data := data }
    let s1 := { session with
      current_state := new_state
      state_history := session.state_history ++ [transition] }
    (true, updateStateData s1 new_state data now)

/-- `isCurrentStateComplete` (wall-clock checks take `now`). -/
def isCurrentStateComplete (session : ExcelInterviewSession) (now : Int) : Bool :=
  match session.current_state with
  | .introduction => now - session.start_time ≥ 30 * 1000
  | .conceptual_questions =>
    session.state_data.questions_completed ≥ session.state_data.total_questions &&
      session.state_data.total_questions > 0
  | .practical_tasks =>
    session.state_data.tasks_completed ≥ session.state_data.total_tasks &&
      session.state_data.total_tasks > 0
  | .feedback_generation => session.state_data.feedback_generated == some true
  | .conclusion => true

def stateFlow : List ExcelInterviewState :=
  [.introduction, .conceptual_questions, .practical_tasks,
   .feedback_generation, .conclusion]

/-- `getNextState` (`indexOf` over the flow array). -/
def getNextState (session : ExcelInterviewSession) : Option ExcelInterviewState :=
  let currentIndex := stateFlow.indexOf session.current_state
  if currentIndex < stateFlow.length - 1 then stateFlow[currentIndex + 1]? else none

/-- `autoProgress`. -/
def autoProgress (session : ExcelInterviewSession) (now : Int) :
    Bool × ExcelInterviewSession :=
  if !(isCurrentStateComplete session now) then (false, session)
  else
    match getNextState session with
    | none => (false, session)
    | some nextState =>
      transition_to session nextState (some { trigger := some "auto_progress" }) now

/-- `createExcelInterviewStateManager`: the fresh session handed to a
new manager. -/
def createSession (responseId : Int) (totalQuestions : Nat := 5)
    (totalTasks : Nat := 3) (now : Int := 0) : ExcelInterviewSession :=
  { id := 0
    response_id := responseId
    current_state := .introduction
    state_data :=
      { current_question_index := some 0
        current_task_index := some 0
        questions_completed := 0
        tasks_completed := 0
        total_questions := totalQuestions
        total_tasks := totalTasks }
    conceptual_progress :=
      { questions_answered := 0, correct_answers := 0, total_score := 0
        category_scores := [], time_spent := 0 }
    practical_progress :=
      { tasks_completed := 0, total_accuracy_score := 0
        total_efficiency_score := 0, total_best_practices_score := 0
        time_spent := 0, functions_demonstrated := [] }
    start_time := now
    state_history := [] }

/-- Sessions reachable from a freshly created session by any sequence of
`transition_to` / `autoProgress` calls (with arbitrary arguments and
clock readings). -/
inductive ReachableSession : ExcelInterviewSession → Prop where
  | create (responseId : Int) (totalQuestions totalTasks : Nat) (now : Int) :
      ReachableSession (createSession responseId totalQuestions totalTasks now)
  | trans {s : ExcelInterviewSession} (new_state : ExcelInterviewState)
      (data : Option TransitionArg) (now : Int) :
      ReachableSession s → ReachableSession (transition_to s new_state data now).2
  | auto {s : ExcelInterviewSession} (now : Int) :
      ReachableSession s → ReachableSession (autoProgress s now).2

/-! ## Skill levels and recommendation
(src/unnamed/part_007, `ExcelSkillConfigService.getRecommendedLevel`;
src/services/excel-analytics.service.ts, `getReadinessThreshold`) -/

inductive ExcelSkillLevel where
  | basic | intermediate | advanced
deriving DecidableEq, Repr

/-- Position of a level in the `basic → intermediate → advanced`
ladder. -/
def levelIndex : ExcelSkillLevel → Nat
  | .basic => 0
  | .intermediate => 1
  | .advanced => 2

/-- `ExcelAnalyticsService.getReadinessThreshold`. -/
def getReadinessThreshold : ExcelSkillLevel → ℚ
  | .basic => 75
  | .intermediate => 80
  | .advanced => 85

/-- The functions counted as advanced by `getRecommendedLevel`. -/
def advancedFunctionList : List String :=
  ["VLOOKUP", "INDEX", "MATCH", "INDIRECT", "OFFSET", "SUMPRODUCT"]

/-- `ExcelSkillConfigService.getRecommendedLevel`.  `configLevels` holds
the `skill_level` values of the configs returned by the database
(`getAllConfigs`); only membership of the current level is read.  The
source returns early inside the `> 85` block and inside the `< 60`
block (the two score conditions are mutually exclusive), else falls
through to the current level. -/
def getRecommendedLevel (configLevels : List ExcelSkillLevel)
    (currentLevel : ExcelSkillLevel) (performanceScore : ℚ)
    (functionsUsed : List String) : ExcelSkillLevel :=
  if !(configLevels.contains currentLevel) then currentLevel
  else
    let advancedFunctions :=
      functionsUsed.filter fun func => advancedFunctionList.contains func
    if performanceScore > 85 && currentLevel == .basic &&
        advancedFunctions.length > 0 then .intermediate
    else if performanceScore > 85 && currentLevel == .intermediate &&
        advancedFunctions.length > 2 then .advanced
    else if performanceScore < 60 && currentLevel == .advanced then .intermediate
    else if performanceScore < 60 && currentLevel == .intermediate then .basic
    else currentLevel

/-! ## Analytics aggregation
(src/services/excel-evaluation.service.ts, `generateExcelAnalytics`)

External effects are modelled as explicit arguments fixed for a call:
`sqrtFn` stands for `Math.sqrt` (a fixed deterministic real-valued
function, not representable exactly on `ℚ`), `configLevels` for the
skill-config rows read from the database, and `overallFeedback` for the
text produced by the external text-generation call-out in
`generateOverallFeedback` (including its trim-and-default handling).
Where the source could produce `NaN` / `Infinity` (averaging over zero
tasks or zero results, `Math.max()` of no arguments), the model uses
`ℚ`-division by zero (= 0) or `⊥`; no claim depends on those corners. -/

/-- `Math.round`: round half toward positive infinity. -/
def jsRound (q : ℚ) : Int := ⌊q + 1 / 2⌋

structure CategoryScore where
  score : ℚ
  max_score : ℚ
  percentage : ℚ
  feedback : String
deriving DecidableEq

structure SkillScore where
  score : ℚ
  feedback : String
  examples : List String
  improvement_areas : List String
deriving DecidableEq

structure ExcelSkillBreakdown where
  formula_accuracy : SkillScore
  data_analysis : SkillScore
  efficiency : SkillScore
  best_practices : SkillScore
  presentation : SkillScore
  problem_solving : SkillScore
deriving DecidableEq

structure SkillLevelAssessment where
  current_level : ExcelSkillLevel
  recommended_level : ExcelSkillLevel
  readiness_score : ℚ
  confidence_interval : ℚ
deriving DecidableEq

structure ConceptualAnalysis where
  total_score : ℚ
  category_breakdown : List (String × CategoryScore)
  knowledge_gaps : List String
  strengths : List String
deriving DecidableEq

structure TaskScore where
  task_id : String
  task_name : String
  accuracy_score : ℚ
  efficiency_score : ℚ
  best_practices_score : ℚ
  completion_time : ℚ
  feedback : String
deriving DecidableEq

structure FormulaProficiency where
  functions_used : List String
  functions_mastered : List String
  functions_struggled : List String
  complexity_level_achieved : WithBot ℚ
  formula_accuracy_rate : ℚ
deriving DecidableEq

structure AnalyticsEfficiencyMetrics where
  average_task_completion_time : ℚ
  optimal_solution_rate : ℚ
  unnecessary_steps_count : Nat
  keyboard_shortcuts_used : Nat
deriving DecidableEq

structure BestPracticesScore where
  score : ℚ
  practices_followed : List String
  practices_violated : List String
  recommendations : List String
deriving DecidableEq

structure PracticalAnalysis where
  total_score : ℚ
  task_breakdown : List TaskScore
  formula_proficiency : FormulaProficiency
  efficiency_metrics : AnalyticsEfficiencyMetrics
  best_practices_adherence : BestPracticesScore
deriving DecidableEq

structure LearningResource where
  type : String
  title : String
  url : Option String := none
  description : String
deriving DecidableEq

structure ImprovementPlanItem where
  priority : String
  skill : String
  current_level : ℚ
  target_level : ℚ
  recommendation : String
  resources : List LearningResource
  estimated_time : String
deriving DecidableEq

structure CompetencyLevel where
  level : String
  score : ℚ
  evidence : List String
deriving DecidableEq

structure CompetencyMatrix where
  basic_functions : CompetencyLevel
  intermediate_functions : CompetencyLevel
  advanced_functions : CompetencyLevel
  data_analysis : CompetencyLevel
  visualization : CompetencyLevel
  automation : CompetencyLevel
deriving DecidableEq

structure ExcelAnalytics where
  overall_score : Int
  overall_feedback : String
  skill_level_assessment : SkillLevelAssessment
  conceptual_analysis : ConceptualAnalysis
  practical_analysis : PracticalAnalysis
  excel_skill_breakdown : ExcelSkillBreakdown
  improvement_plan : List ImprovementPlanItem
  competency_matrix : CompetencyMatrix
deriving DecidableEq

/-- The fields of a `SpreadsheetResult` that the analytics aggregation
reads (the snapshot / action payload fields are never consulted by it
and are omitted). -/
structure SpreadsheetResult where
  task_id : String
  task_name : String
  functions_used : List String
  completion_time : ℚ
  accuracy_score : ℚ
  efficiency_score : ℚ
  best_practices_score : ℚ
  task_feedback : String
deriving DecidableEq

/-- `results.reduce((sum, r) => sum + f(r), 0)`. -/
def sumOver (results : List SpreadsheetResult) (f : SpreadsheetResult → ℚ) : ℚ :=
  results.foldl (fun sum r => sum + f r) 0

/-- `analyzeSkillBreakdown` (the `functionsUsed` argument is unread in
the source body; averages over an empty result list are `NaN` in JS,
`0` here). -/
def analyzeSkillBreakdown (spreadsheetResults : List SpreadsheetResult)
    (_functionsUsed : List String) (categoryScores : List (String × ℚ)) :
    ExcelSkillBreakdown :=
  let avgAccuracy := sumOver spreadsheetResults (·.accuracy_score) / spreadsheetResults.length
  let avgEfficiency := sumOver spreadsheetResults (·.efficiency_score) / spreadsheetResults.length
  let avgBestPractices := sumOver spreadsheetResults (·.best_practices_score) / spreadsheetResults.length
  { formula_accuracy :=
      { score := avgAccuracy
        feedback := if avgAccuracy ≥ 80 then "Excellent formula accuracy"
                    else "Room for improvement in formula accuracy"
        examples := []
        improvement_areas :=
          if avgAccuracy < 80 then ["Formula construction", "Function usage"] else [] }
    data_analysis :=
      { score := (categoryScores.lookup "Data Analysis").getD 0
        feedback := "Data analysis skills assessment"
        examples := []
        improvement_areas := [] }
    efficiency :=
      { score := avgEfficiency
        feedback := if avgEfficiency ≥ 80 then "Efficient problem-solving approach"
                    else "Could improve efficiency"
        examples := []
        improvement_areas :=
          if avgEfficiency < 80 then ["Solution optimization", "Function selection"] else [] }
    best_practices :=
      { score := avgBestPractices
        feedback := if avgBestPractices ≥ 80 then "Good adherence to best practices"
                    else "Need to improve best practices"
        examples := []
        improvement_areas :=
          if avgBestPractices < 80 then ["Formatting", "Documentation", "Structure"] else [] }
    presentation :=
      { score := 75
        feedback := "Presentation skills assessment"
        examples := []
        improvement_areas := [] }
    problem_solving :=
      { score := (avgAccuracy + avgEfficiency) / 2
        feedback := "Problem-solving approach evaluation"
        examples := []
        improvement_areas := [] } }

/-- `calculateConfidenceInterval`: `min(sqrt(score*(100-score)/n)*1.96, 20)`. -/
def calculateConfidenceInterval (sqrtFn : ℚ → ℚ) (score : ℚ) (sampleSize : Nat) : ℚ :=
  min (sqrtFn ((score * (100 - score)) / (sampleSize : ℚ)) * (196 / 100)) 20

/-- `assessSkillLevel`. -/
def assessSkillLevel (sqrtFn : ℚ → ℚ) (configLevels : List ExcelSkillLevel)
    (currentLevel : ExcelSkillLevel) (overallScore : ℚ)
    (functionsUsed : List String) (spreadsheetResults : List SpreadsheetResult) :
    SkillLevelAssessment :=
  { current_level := currentLevel
    recommended_level :=
      getRecommendedLevel configLevels currentLevel overallScore functionsUsed
    readiness_score := overallScore
    confidence_interval :=
      calculateConfidenceInterval sqrtFn overallScore spreadsheetResults.length }

/-- One `Object.entries(skillBreakdown)` iteration of
`generateImprovementPlan` (`skillName` is the key with `_` already
replaced by a space). -/
def improvementEntry (skillName : String) (breakdown : SkillScore) :
    List ImprovementPlanItem :=
  if breakdown.score < 70 then
    [{ priority := if breakdown.score < 50 then "high" else "medium"
       skill := skillName
       current_level := breakdown.score
       target_level := 80
       recommendation := "Focus on improving " ++ skillName ++ " through targeted practice"
       resources :=
         [{ type := "tutorial"
            title := skillName ++ " Tutorial"
            description := "Comprehensive guide to improve " ++ skillName ++ " skills" }]
       estimated_time := "2-3 weeks" }]
  else []

/-- `generateImprovementPlan`: the six breakdown entries in declaration
order. -/
def generateImprovementPlan (skillBreakdown : ExcelSkillBreakdown) :
    List ImprovementPlanItem :=
  improvementEntry "formula accuracy" skillBreakdown.formula_accuracy ++
  improvementEntry "data analysis" skillBreakdown.data_analysis ++
  improvementEntry "efficiency" skillBreakdown.efficiency ++
  improvementEntry "best practices" skillBreakdown.best_practices ++
  improvementEntry "presentation" skillBreakdown.presentation ++
  improvementEntry "problem solving" skillBreakdown.problem_solving

/-- The (smaller) complexity table of `calculateComplexityLevel`
(unknown functions default to 1). -/
def analyticsComplexityWeight (f : String) : ℚ :=
  if f = "SUM" then 1
  else if f = "AVERAGE" then 1
  else if f = "COUNT" then 1
  else if f = "IF" then 2
  else if f = "VLOOKUP" then 2
  else if f = "SUMIF" then 2
  else if f = "INDEX" then 3
  else if f = "MATCH" then 3
  else if f = "INDIRECT" then 4
  else 1

/-- `calculateComplexityLevel`: `Math.max(...)` over the mapped weights;
with no functions the JS spread gives `-Infinity`, modelled as `⊥`. -/
def calculateComplexityLevel (functionsUsed : List String) : WithBot ℚ :=
  (functionsUsed.map fun func => ((analyticsComplexityWeight func : ℚ) : WithBot ℚ)).foldl
    max ⊥

def calculateFormulaAccuracyRate (results : List SpreadsheetResult) : ℚ :=
  if results.length = 0 then 0
  else sumOver results (·.accuracy_score) / results.length

def calculateOptimalSolutionRate (results : List SpreadsheetResult) : ℚ :=
  if results.length = 0 then 0
  else sumOver results (·.efficiency_score) / results.length

def countUnnecessarySteps (_results : List SpreadsheetResult) : Nat := 0

def identifyKnowledgeGaps (progress : ConceptualProgress) : List String :=
  (progress.category_scores.filter fun p => p.2 < 60).map fun p => p.1

def identifyStrengthsOf (progress : ConceptualProgress) : List String :=
  (progress.category_scores.filter fun p => p.2 ≥ 80).map fun p => p.1

/-- The per-function accuracy-score lists built by
`identifyMasteredFunctions` / `identifyStruggledFunctions`: one entry
per occurrence of `func` in a result's `functions_used`. -/
def functionScoresFor (results : List SpreadsheetResult) (func : String) : List ℚ :=
  results.flatMap fun r =>
    (r.functions_used.filter fun g => g == func).map fun _ => r.accuracy_score

/-- `identifyMasteredFunctions` (object keys iterate in first-insertion
order). -/
def identifyMasteredFunctions (results : List SpreadsheetResult) : List String :=
  (dedupFirst (results.flatMap fun r => r.functions_used) []).filter fun func =>
    (functionScoresFor results func).sum / (functionScoresFor results func).length ≥ 80

/-- `identifyStruggledFunctions`. -/
def identifyStruggledFunctions (results : List SpreadsheetResult) : List String :=
  (dedupFirst (results.flatMap fun r => r.functions_used) []).filter fun func =>
    (functionScoresFor results func).sum / (functionScoresFor results func).length < 60

def identifyFollowedPractices (_results : List SpreadsheetResult) : List String :=
  ["Proper cell referencing", "Clear formula structure"]

def identifyViolatedPractices (_results : List SpreadsheetResult) : List String := []

def generateBestPracticeRecommendations (_results : List SpreadsheetResult) : List String :=
  ["Use absolute references when appropriate", "Add comments to complex formulas"]

/-- `generateCompetencyMatrix` returns a constant matrix. -/
def generateCompetencyMatrix : CompetencyMatrix :=
  { basic_functions := { level := "intermediate", score := 75, evidence := [] }
    intermediate_functions := { level := "beginner", score := 60, evidence := [] }
    advanced_functions := { level := "novice", score := 40, evidence := [] }
    data_analysis := { level := "intermediate", score := 70, evidence := [] }
    visualization := { level := "beginner", score := 50, evidence := [] }
    automation := { level := "novice", score := 30, evidence := [] } }

/-- `convertCategoryScores`. -/
def convertCategoryScores (categoryScores : List (String × ℚ)) :
    List (String × CategoryScore) :=
  categoryScores.map fun p =>
    (p.1,
     { score := p.2
       max_score := 100
       percentage := p.2
       feedback :=
         if p.2 ≥ (80 : ℚ) then "Excellent " ++ p.1 ++ " skills"
         else if p.2 ≥ (60 : ℚ) then "Good " ++ p.1 ++ " skills"
         else "Needs improvement in " ++ p.1 })

/-- `ExcelEvaluationService.generateExcelAnalytics` (success path; the
`catch` fallback fires only when an external call rejects).
`overallFeedback` is the text returned by `generateOverallFeedback`
(external call-out plus its internal fallback). -/
def generateExcelAnalytics (sqrtFn : ℚ → ℚ) (configLevels : List ExcelSkillLevel)
    (skillLevel : ExcelSkillLevel) (conceptualProgress : ConceptualProgress)
    (practicalProgress : PracticalProgress)
    (spreadsheetResults : List SpreadsheetResult) (_totalDuration : ℚ)
    (overallFeedback : String) : ExcelAnalytics :=
  let conceptualScore := conceptualProgress.total_score
  let practicalScore :=
    (practicalProgress.total_accuracy_score +
     practicalProgress.total_efficiency_score +
     practicalProgress.total_best_practices_score) / 3
  let overallScore := (conceptualScore + practicalScore) / 2
  let skillBreakdown :=
    analyzeSkillBreakdown spreadsheetResults
      practicalProgress.functions_demonstrated conceptualProgress.category_scores
  { overall_score := jsRound overallScore
    overall_feedback := overallFeedback
    skill_level_assessment :=
      assessSkillLevel sqrtFn configLevels skillLevel overallScore
        practicalProgress.functions_demonstrated spreadsheetResults
    conceptual_analysis :=
      { total_score := conceptualScore
        category_breakdown := convertCategoryScores conceptualProgress.category_scores
        knowledge_gaps := identifyKnowledgeGaps conceptualProgress
        strengths := identifyStrengthsOf conceptualProgress }
    practical_analysis :=
      { total_score := practicalScore
        task_breakdown := spreadsheetResults.map fun result =>
          { task_id := result.task_id
            task_name := result.task_name
            accuracy_score := result.accuracy_score
            efficiency_score := result.efficiency_score
            best_practices_score := result.best_practices_score
            completion_time := result.completion_time
            feedback := result.task_feedback }
        formula_proficiency :=
          { functions_used := practicalProgress.functions_demonstrated
            functions_mastered := identifyMasteredFunctions spreadsheetResults
            functions_struggled := identifyStruggledFunctions spreadsheetResults
            complexity_level_achieved :=
              calculateComplexityLevel practicalProgress.functions_demonstrated
            formula_accuracy_rate := calculateFormulaAccuracyRate spreadsheetResults }
        efficiency_metrics :=
          { average_task_completion_time :=
              practicalProgress.time_spent / (practicalProgress.tasks_completed : ℚ)
            optimal_solution_rate := calculateOptimalSolutionRate spreadsheetResults
            unnecessary_steps_count := countUnnecessarySteps spreadsheetResults
            keyboard_shortcuts_used := 0 }
        best_practices_adherence :=
          { score := practicalProgress.total_best_practices_score
            practices_followed := identifyFollowedPractices spreadsheetResults
            practices_violated := identifyViolatedPractices spreadsheetResults
            recommendations := generateBestPracticeRecommendations spreadsheetResults } }
    excel_skill_breakdown := skillBreakdown
    improvement_plan := generateImprovementPlan skillBreakdown
    competency_matrix := generateCompetencyMatrix }

theorem columnToLetterFuel_neg (fuel : Nat) (col : Int) (acc : List Char)
    (h : col < 0) : columnToLetterFuel fuel col acc = acc := by
  cases fuel with
  | zero => rfl
  | succ fuel => simp [columnToLetterFuel, show ¬(0 ≤ col) from by omega]

theorem columnToLetterFuel_append (fuel : Nat) :
    ∀ (col : Int) (acc : List Char),
      columnToLetterFuel fuel col acc = columnToLetterFuel fuel col [] ++ acc := by
  induction fuel with
  | zero => intro col acc; rfl
  | succ fuel ih =>
    intro col acc
    by_cases h : 0 ≤ col
    · simp only [columnToLetterFuel, if_pos h]
      rw [ih, ih (col / 26 - 1) (Char.ofNat (65 + (col % 26).toNat) :: [])]
      simp
    · simp only [columnToLetterFuel, if_neg h]
      simp

theorem char_ofNat_toNat_small :
    ∀ k : Nat, k < 26 → (Char.ofNat (65 + k)).toNat = 65 + k := by decide

theorem foldl_columnToLetterFuel (fuel : Nat) :
    ∀ (col : Int), 0 ≤ col → (col + 1).toNat ≤ fuel → ∀ r : Int,
      (columnToLetterFuel fuel col []).foldl
          (fun result c => result * 26 + ((c.toNat : Int) - 64)) r =
        r * 26 ^ (columnToLetterFuel fuel col []).length + col + 1 := by
  induction fuel with
  | zero => intro col h hle; omega
  | succ fuel ih =>
    intro col h hle r
    have hmod : 0 ≤ col % 26 := Int.emod_nonneg col (by norm_num)
    have hmodlt : col % 26 < 26 := Int.emod_lt_of_pos col (by norm_num)
    have hchar := char_ofNat_toNat_small (col % 26).toNat (by omega)
    have htn : ((col % 26).toNat : Int) = col % 26 := Int.toNat_of_nonneg hmod
    simp only [columnToLetterFuel, if_pos h]
    by_cases hsmall : col < 26
    · have hdiv : col / 26 = 0 := Int.ediv_eq_zero_of_lt h hsmall
      rw [columnToLetterFuel_neg fuel (col / 26 - 1) _ (by omega)]
      have hmodeq : col % 26 = col := Int.emod_eq_of_lt h hsmall
      simp only [List.foldl_cons, List.foldl_nil, List.length_cons, List.length_nil]
      rw [hchar]
      push_cast [htn]
      omega
    · have h1le : (1 : ℤ) ≤ col / 26 := by
        rw [Int.le_ediv_iff_mul_le (by norm_num : (0:ℤ) < 26)]
        omega
      have hdivlt : col / 26 < col := by
        rw [Int.ediv_lt_iff_lt_mul (by norm_num : (0:ℤ) < 26)]
        nlinarith
      rw [columnToLetterFuel_append]
      rw [List.foldl_append, List.length_append]
      rw [ih (col / 26 - 1) (by omega) (by omega) r]
      simp only [List.foldl_cons, List.foldl_nil, List.length_cons, List.length_nil]
      rw [hchar]
      have hdm : 26 * (col / 26) + col % 26 = col := Int.ediv_add_emod col 26
      rw [pow_succ]
      push_cast [htn]
      linear_combination hdm

/-- C10: decoding an encoded column label returns the original
zero-based column index. -/
theorem letterToColumn_columnToLetter (c : Nat) :
    letterToColumn (columnToLetter (c : Int)) = c := by
  unfold letterToColumn columnToLetter columnLetters
  show (columnToLetterFuel ((c : Int) + 1).toNat (c : Int) []).foldl _ 0 - 1 = (c : Int)
  rw [foldl_columnToLetterFuel ((c : Int) + 1).toNat (c : Int) (by positivity) le_rfl 0]
  ring

/-! ## Theorems: formula parser (C8) -/

def balInt (l : List Char) : Int := (l.count '(' : Int) - (l.count ')' : Int)

theorem nil_mem_inits (l : List Char) : [] ∈ l.inits := by
  cases l <;> simp [List.inits]

theorem checkParens_iff (l : List Char) : ∀ (n : Int), 0 ≤ n →
    (checkParens l n = true ↔
      ((∀ p ∈ l.inits, 0 ≤ n + balInt p) ∧ n + balInt l = 0)) := by
  induction l with
  | nil =>
    intro n hn
    simp [checkParens, balInt]
    omega
  | cons c rest ih =>
    intro n hn
    obtain ⟨d, hd_cons, hstep⟩ : ∃ d : Int,
        (∀ q, balInt (c :: q) = d + balInt q) ∧
          checkParens (c :: rest) n =
            (if n + d < 0 then false else checkParens rest (n + d)) := by
      by_cases hc1 : c = '('
      · refine ⟨1, fun q => ?_, ?_⟩
        · simp [balInt, List.count_cons, hc1]; omega
        · simp [checkParens, hc1, show (('(' : Char) == ')') = false from by decide]
      · by_cases hc2 : c = ')'
        · refine ⟨-1, fun q => ?_, ?_⟩
          · simp [balInt, List.count_cons, hc2]; omega
          · simp only [checkParens, hc2, show ((')' : Char) == '(') = false from by decide,
              Bool.false_eq_true, if_false, beq_self_eq_true, if_true]
            norm_num
            rfl
        · refine ⟨0, fun q => ?_, ?_⟩
          · simp [balInt, List.count_cons,
              beq_eq_false_iff_ne.mpr hc1, beq_eq_false_iff_ne.mpr hc2]
          · simp only [checkParens, beq_eq_false_iff_ne.mpr hc1,
              beq_eq_false_iff_ne.mpr hc2, Bool.false_eq_true, if_false]
            norm_num
    rw [hstep]
    by_cases hneg : n + d < 0
    · rw [if_pos hneg]
      simp only [Bool.false_eq_true, false_iff, not_and]
      intro h1
      exfalso
      have hm : (c :: ([] : List Char)) ∈ (c :: rest).inits := by
        simp [List.inits, nil_mem_inits]
      have := h1 _ hm
      rw [hd_cons []] at this
      simp [balInt] at this
      omega
    · rw [if_neg hneg]
      rw [ih (n + d) (by omega)]
      constructor
      · rintro ⟨h1, h2⟩
        refine ⟨?_, ?_⟩
        · intro p hp
          simp only [List.inits, List.mem_cons, List.mem_map] at hp
          rcases hp with rfl | ⟨q, hq, rfl⟩
          · simp [balInt]; omega
          · rw [hd_cons q]
            have := h1 q hq
            omega
        · rw [hd_cons rest]
          omega
      · rintro ⟨h1, h2⟩
        rw [hd_cons rest] at h2
        refine ⟨?_, by omega⟩
        intro q hq
        have hm : (c :: q) ∈ (c :: rest).inits := by
          simp only [List.inits, List.mem_cons, List.mem_map]
          exact Or.inr ⟨q, hq, rfl⟩
        have := h1 _ hm
        rw [hd_cons q] at this
        omega

/-- The claim-side balance predicate: the running open-parenthesis
count never goes negative (no prefix closes more than it opens) and
ends at zero. -/
def balancedSpec (l : List Char) : Prop :=
  (∀ p ∈ l.inits, p.count ')' ≤ p.count '(') ∧ l.count '(' = l.count ')'

instance (l : List Char) : Decidable (balancedSpec l) := by
  unfold balancedSpec
  infer_instance

theorem validateFormula_iff_balancedSpec (s : String) :
    validateFormula s = true ↔ balancedSpec s.data := by
  unfold validateFormula balancedSpec
  rw [checkParens_iff s.data 0 le_rfl]
  constructor
  · rintro ⟨h1, h2⟩
    refine ⟨fun p hp => ?_, ?_⟩
    · have := h1 p hp
      unfold balInt at this
      omega
    · unfold balInt at h2
      omega
  · rintro ⟨h1, h2⟩
    refine ⟨fun p hp => ?_, ?_⟩
    · have := h1 p hp
      unfold balInt
      omega
    · unfold balInt
      omega

theorem parseFormula_other_head {l : List Char} (h : l.head? ≠ some '=') :
    parseFormula ⟨l⟩ = ⟨[], [], false, 0⟩ := by
  unfold parseFormula
  split
  next heq =>
    exfalso
    apply h
    rw [show (String.mk l).data = l from rfl] at heq
    rw [heq]
    rfl
  next => rfl

theorem parseFormula_eq_head (t : List Char) :
    parseFormula ⟨'=' :: t⟩ =
      { functions := extractFunctions ('=' :: t)
        references := extractReferences ('=' :: t)
        isValid := validateFormula ⟨'=' :: t⟩
        complexity := ((extractFunctions ('=' :: t)).map getFunctionComplexity).sum } := rfl

/-- C8: `parseFormula` is a total function (it cannot throw); for input
not starting with `=` it returns
`{ functions := [], references := [], isValid := false, complexity := 0 }`;
and for input starting with `=`, `isValid` holds iff the parentheses are
balanced (the running open count never goes negative and ends at zero). -/
theorem claim_C8_parseFormula (s : String) :
    (s.data.head? ≠ some '=' → parseFormula s = ⟨[], [], false, 0⟩) ∧
    (s.data.head? = some '=' →
      ((parseFormula s).isValid = true ↔ balancedSpec s.data)) := by
  obtain ⟨l⟩ := s
  constructor
  · intro h
    exact parseFormula_other_head h
  · intro h
    cases l with
    | nil => simp at h
    | cons c t =>
      have hc : c = '=' := by simpa using h
      subst hc
      rw [parseFormula_eq_head t]
      exact validateFormula_iff_balancedSpec ⟨'=' :: t⟩

/-- C8 witness: the claim instantiated at `"SUM(A1)"` (no `=` prefix)
and at `"=SUM(A1,B1)"` / `"=SUM(A1,B1"` (balanced and unbalanced). -/
theorem claim_C8_parseFormula_witness :
    (parseFormula "SUM(A1)" = ⟨[], [], false, 0⟩) ∧
    ((parseFormula "=SUM(A1,B1)").isValid = true ↔ balancedSpec "=SUM(A1,B1)".data) ∧
    ((parseFormula "=SUM(A1,B1").isValid = true ↔ balancedSpec "=SUM(A1,B1".data) :=
  ⟨(claim_C8_parseFormula "SUM(A1)").1 (by decide),
   (claim_C8_parseFormula "=SUM(A1,B1)").2 (by decide),
   (claim_C8_parseFormula "=SUM(A1,B1").2 (by decide)⟩

/-! ## Theorems: action tracker (C9) -/

/-- C9 counterexample: `clear` is a public operation other than
`addAction`, and it removes the recorded action — the log after
`clear` differs from the log before. -/
theorem claim_C9_counterexample :
    (clearActions ((addAction [] { timestamp := 0, type := .cell_edit }).2)).2 ≠
      (addAction [] { timestamp := 0, type := .cell_edit }).2 := by
  decide

/-- C9 amended: recorded actions are never mutated and every public
operation other than `addAction` and `clear` leaves the action log
unchanged; `addAction` appends exactly the given action, `clear` resets
the log to empty, `getActions` returns a copy equal to the log, and no
operation can fail (all are total). -/
theorem claim_C9_tracker_ops (state : List UserAction) (a : UserAction)
    (t : ActionType) :
    (getActions state).2 = state ∧ (getActions state).1 = state ∧
    (getActionsByType state t).2 = state ∧
    (getFormulasUsed state).2 = state ∧
    (getFunctionsUsed state).2 = state ∧
    (getTimeSpent state).2 = state ∧
    (getEfficiencyMetrics state).2 = state ∧
    (addAction state a).2 = state ++ [a] ∧
    (clearActions state).2 = [] :=
  ⟨rfl, rfl, rfl, rfl, rfl, rfl, rfl, rfl, rfl⟩

/-! ## Theorems: invalid transitions (C6) -/

/-- C6: whenever `transition_to` is called with a target that is not the
single allowed successor of the current state — in particular any call
made while the session is in the terminal `conclusion` state — it
returns `false` (it cannot throw) and leaves the session completely
unchanged: `current_state`, `state_history`, `state_data`, `end_time`
and `total_duration` all keep their prior values. -/
theorem claim_C6_invalid_transition (s : ExcelInterviewSession)
    (ns : ExcelInterviewState) (d : Option TransitionArg) (now : Int) :
    (ns ∉ getValidTransitions s.current_state →
      transition_to s ns d now = (false, s)) ∧
    (s.current_state = .conclusion → transition_to s ns d now = (false, s)) := by
  constructor
  · intro h
    unfold transition_to can_transition
    rw [if_pos]
    simpa using h
  · intro h
    unfold transition_to can_transition
    rw [if_pos]
    simp [h, getValidTransitions]

/-- C6 witness: a concrete session in the `conclusion` state rejects a
forward and a backward target, unchanged. -/
theorem claim_C6_invalid_transition_witness :
    (transition_to { current_state := .conclusion, state_data := {}, state_history := [] }
        .introduction none 7 =
      (false, { current_state := .conclusion, state_data := {}, state_history := [] })) ∧
    (transition_to { current_state := .introduction, state_data := {}, state_history := [] }
        .conclusion none 7 =
      (false, { current_state := .introduction, state_data := {}, state_history := [] })) :=
  ⟨(claim_C6_invalid_transition _ _ none 7).2 rfl,
   (claim_C6_invalid_transition _ _ none 7).1 (by decide)⟩

/-! ## Theorems: state-history order (C2) -/

/-- The flow without the initial state: the `to_state` values a history
can accumulate. -/
def flowTail : List ExcelInterviewState :=
  [.conceptual_questions, .practical_tasks, .feedback_generation, .conclusion]

/-- Each entry's `from_state` equals the prior entry's `to_state` (or
`st`, the initial state, for the first entry). -/
def chainedFrom : ExcelInterviewState → List StateTransition → Prop
  | _, [] => True
  | st, t :: rest => t.from_state = st ∧ chainedFrom t.to_state rest

/-- The last `to_state` of a history (or `st` if empty). -/
def lastTo (st : ExcelInterviewState) : List StateTransition → ExcelInterviewState
  | [] => st
  | t :: rest => lastTo t.to_state rest

/-- The five shapes a reachable session's history/state can take. -/
def histShape (s : ExcelInterviewSession) : Prop :=
  (s.state_history.map (fun t => t.to_state) = [] ∧
    s.current_state = .introduction) ∨
  (s.state_history.map (fun t => t.to_state) = [.conceptual_questions] ∧
    s.current_state = .conceptual_questions) ∨
  (s.state_history.map (fun t => t.to_state) =
      [.conceptual_questions, .practical_tasks] ∧
    s.current_state = .practical_tasks) ∨
  (s.state_history.map (fun t => t.to_state) =
      [.conceptual_questions, .practical_tasks, .feedback_generation] ∧
    s.current_state = .feedback_generation) ∨
  (s.state_history.map (fun t => t.to_state) =
      [.conceptual_questions, .practical_tasks, .feedback_generation, .conclusion] ∧
    s.current_state = .conclusion)

def sessionInv (s : ExcelInterviewSession) : Prop :=
  histShape s ∧ chainedFrom .introduction s.state_history ∧
    lastTo .introduction s.state_history = s.current_state

theorem chainedFrom_append (h : List StateTransition) :
    ∀ (st : ExcelInterviewState) (t : StateTransition),
      chainedFrom st h → t.from_state = lastTo st h → chainedFrom st (h ++ [t]) := by
  induction h with
  | nil =>
    intro st t _ hf
    exact ⟨hf, trivial⟩
  | cons u rest ih =>
    rintro st t ⟨hu, hrest⟩ hf
    exact ⟨hu, ih _ _ hrest hf⟩

theorem lastTo_append (h : List StateTransition) :
    ∀ (st : ExcelInterviewState) (t : StateTransition),
      lastTo st (h ++ [t]) = t.to_state := by
  induction h with
  | nil => intro st t; rfl
  | cons u rest ih => intro st t; exact ih u.to_state t

theorem updateStateData_fields (s : ExcelInterviewSession)
    (ns : ExcelInterviewState) (d : Option TransitionArg) (now : Int) :
    (updateStateData s ns d now).current_state = s.current_state ∧
    (updateStateData s ns d now).state_history = s.state_history := by
  unfold updateStateData
  cases d <;> cases ns <;> exact ⟨rfl, rfl⟩

theorem sessionInv_transition (s : ExcelInterviewSession)
    (ns : ExcelInterviewState) (d : Option TransitionArg) (now : Int)
    (h : sessionInv s) : sessionInv (transition_to s ns d now).2 := by
  unfold transition_to
  cases hcan : can_transition s ns with
  | false => simpa using h
  | true =>
    simp only [hcan, Bool.not_true, Bool.false_eq_true, if_false]
    obtain ⟨hshape, hchain, hlast⟩ := h
    have hmem : ns ∈ getValidTransitions s.current_state := by
      unfold can_transition at hcan
      simpa using hcan
    set t : StateTransition :=
      { from_state := s.current_state
        to_state := ns
        timestamp := now
        trigger := triggerOf d
        data := d } with ht
    set s1 : ExcelInterviewSession :=
      { s with current_state := ns, state_history := s.state_history ++ [t] } with hs1
    have hu := updateStateData_fields s1 ns d now
    refine ⟨?_, ?_, ?_⟩
    · unfold histShape
      rw [hu.1, hu.2]
      show (s.state_history ++ [t]).map (fun u => u.to_state) = [] ∧ ns = _ ∨ _
      rcases hshape with ⟨hm, hc⟩ | ⟨hm, hc⟩ | ⟨hm, hc⟩ | ⟨hm, hc⟩ | ⟨hm, hc⟩ <;>
        rw [hc] at hmem <;> simp [getValidTransitions] at hmem <;> subst hmem <;>
        simp [List.map_append, hm]
    · rw [hu.2]
      exact chainedFrom_append _ _ _ hchain (by rw [hlast])
    · rw [hu.1, hu.2, lastTo_append]

theorem sessionInv_reachable (s : ExcelInterviewSession)
    (h : ReachableSession s) : sessionInv s := by
  induction h with
  | create rid tq tt now =>
    exact ⟨Or.inl ⟨rfl, rfl⟩, trivial, rfl⟩
  | trans ns d now _ ih => exact sessionInv_transition _ ns d now ih
  | auto now _ ih =>
    simp only [autoProgress]
    split
    · exact ih
    · split
      · exact ih
      · exact sessionInv_transition _ _ _ _ ih

/-- C2 counterexample: after the very first successful transition of a
fresh session, the `to_state` sequence is `[conceptual_questions]`,
which is NOT a prefix of the full flow
`[introduction, conceptual_questions, …]` — the history records only
the states entered, so `introduction` never appears as a `to_state`. -/
theorem claim_C2_counterexample :
    ReachableSession (transition_to (createSession 1 5 3 0)
        .conceptual_questions none 5).2 ∧
    ¬ ((transition_to (createSession 1 5 3 0) .conceptual_questions none 5).2.state_history.map
        (fun t => t.to_state)) <+: stateFlow := by
  constructor
  · exact .trans _ none 5 (.create 1 5 3 0)
  · intro hp
    have hmap : ((transition_to (createSession 1 5 3 0) .conceptual_questions none 5).2.state_history.map
        (fun t => t.to_state)) = [.conceptual_questions] := rfl
    rw [hmap] at hp
    rcases hp with ⟨u, hu⟩
    simp [stateFlow] at hu

/-- C2 amended: for every session reachable from a fresh session by any
sequence of `transition_to` / `autoProgress` calls, the sequence of
`to_state` values in `state_history` is exactly a prefix of
`[conceptual_questions, practical_tasks, feedback_generation, conclusion]`
(the flow without the initial state — equivalently, `introduction`
followed by that sequence is a prefix of the full flow), and each
entry's `from_state` equals the prior entry's `to_state` (or
`introduction`, the session's initial state, for the first entry). -/
theorem claim_C2_history (s : ExcelInterviewSession) (h : ReachableSession s) :
    ((s.state_history.map (fun t => t.to_state)) <+: flowTail) ∧
    chainedFrom .introduction s.state_history := by
  obtain ⟨hshape, hchain, -⟩ := sessionInv_reachable s h
  refine ⟨?_, hchain⟩
  rcases hshape with ⟨hm, -⟩ | ⟨hm, -⟩ | ⟨hm, -⟩ | ⟨hm, -⟩ | ⟨hm, -⟩ <;> rw [hm]
  · exact ⟨flowTail, rfl⟩
  · exact ⟨[.practical_tasks, .feedback_generation, .conclusion], rfl⟩
  · exact ⟨[.feedback_generation, .conclusion], rfl⟩
  · exact ⟨[.conclusion], rfl⟩
  · exact ⟨[], rfl⟩

/-- C2 witness: the amended claim at a concrete reachable session (one
successful transition out of a fresh session). -/
theorem claim_C2_history_witness :
    (((transition_to (createSession 1 5 3 0) .conceptual_questions none 5).2.state_history.map
        (fun t => t.to_state)) <+: flowTail) ∧
    chainedFrom .introduction
      (transition_to (createSession 1 5 3 0) .conceptual_questions none 5).2.state_history :=
  claim_C2_history _ (.trans _ none 5 (.create 1 5 3 0))

/-! ## Theorems: skill-level recommendation (C4) -/

/-- C4 counterexample: with every config row present, a `basic`
candidate scoring 80 meets the basic readiness threshold (75), yet
`getRecommendedLevel` does not advance — the recommendation is driven
by the `> 85` / advanced-functions test, not by the threshold table. -/
theorem claim_C4_counterexample :
    getRecommendedLevel [.basic, .intermediate, .advanced] .basic 80 [] = .basic ∧
    getReadinessThreshold .basic ≤ (80 : ℚ) := by
  constructor
  · decide
  · norm_num [getReadinessThreshold]

/-- C4 amended: the readiness-threshold table (75/80/85) feeds only the
separate `readinessForNextLevel` flag of the analytics service;
`getRecommendedLevel` advances exactly one level only when the score
exceeds 85 and the candidate demonstrated advanced functions (at least
one for `basic`, more than two for `intermediate`), demotes exactly one
level only when the score is below 60, and otherwise holds the current
level — in particular it never moves more than one level per
assessment. -/
theorem claim_C4_recommendation (cfg : List ExcelSkillLevel)
    (lvl : ExcelSkillLevel) (score : ℚ) (fns : List String) :
    (levelIndex (getRecommendedLevel cfg lvl score fns) ≤ levelIndex lvl + 1) ∧
    (levelIndex lvl ≤ levelIndex (getRecommendedLevel cfg lvl score fns) + 1) ∧
    (levelIndex lvl < levelIndex (getRecommendedLevel cfg lvl score fns) →
      score > 85 ∧
      ((lvl = .basic ∧ getRecommendedLevel cfg lvl score fns = .intermediate ∧
          0 < (fns.filter fun f => advancedFunctionList.contains f).length) ∨
       (lvl = .intermediate ∧ getRecommendedLevel cfg lvl score fns = .advanced ∧
          2 < (fns.filter fun f => advancedFunctionList.contains f).length))) ∧
    (levelIndex (getRecommendedLevel cfg lvl score fns) < levelIndex lvl →
      score < 60 ∧
      ((lvl = .advanced ∧ getRecommendedLevel cfg lvl score fns = .intermediate) ∨
       (lvl = .intermediate ∧ getRecommendedLevel cfg lvl score fns = .basic))) := by
  cases lvl <;> simp only [getRecommendedLevel] <;> split_ifs <;>
    refine ⟨?_, ?_, fun hlt => ?_, fun hlt => ?_⟩ <;>
    simp_all [levelIndex] <;>
    first
      | omega
      | linarith
      | (constructor <;> first | linarith | omega)

/-- C4 witness: the amended claim at a concrete advancing input
(`intermediate`, score 90, three advanced functions demonstrated):
advancement implies the `> 85` score and pins the exact
intermediate-to-advanced step with more than two advanced functions. -/
theorem claim_C4_recommendation_witness :
    (90 : ℚ) > 85 ∧
    ((ExcelSkillLevel.intermediate = .basic ∧
        getRecommendedLevel [.basic, .intermediate, .advanced] .intermediate 90
          ["VLOOKUP", "INDEX", "MATCH"] = .intermediate ∧
        0 < ((["VLOOKUP", "INDEX", "MATCH"] : List String).filter
          fun f => advancedFunctionList.contains f).length) ∨
     (ExcelSkillLevel.intermediate = .intermediate ∧
        getRecommendedLevel [.basic, .intermediate, .advanced] .intermediate 90
          ["VLOOKUP", "INDEX", "MATCH"] = .advanced ∧
        2 < ((["VLOOKUP", "INDEX", "MATCH"] : List String).filter
          fun f => advancedFunctionList.contains f).length)) :=
  (claim_C4_recommendation [.basic, .intermediate, .advanced] .intermediate 90
    ["VLOOKUP", "INDEX", "MATCH"]).2.2.1 (by decide)

/-! ## Theorems: analytics determinism (C5) -/

/-- C5 counterexample: the report embeds the text returned by the
external text-generation call (`generateOverallFeedback`, a GPT call at
temperature 0.7).  With the five aggregation inputs (skill level,
conceptual progress, practical progress, task results, duration) held
identical, two runs whose external call returns different text produce
different `AnalyticsReport`s — the report is not a function of the five
inputs alone. -/
theorem claim_C5_counterexample :
    generateExcelAnalytics (fun _ => 0) [] .basic {} {} [] 0 "A" ≠
      generateExcelAnalytics (fun _ => 0) [] .basic {} {} [] 0 "B" := by
  intro h
  have := congrArg ExcelAnalytics.overall_feedback h
  simp [generateExcelAnalytics] at this

/-- C5 amended: the aggregation is a pure function of its inputs
together with its external collaborators (the `Math.sqrt` function, the
skill-config rows read from the database, and the text returned by the
external feedback call): two calls with identical inputs and identical
external responses yield identical reports, the external feedback text
flows only into the `overall_feedback` field (every other field is
determined by the inputs and the database rows alone), and in the
embedding no input value is mutated. -/
theorem claim_C5_analytics_pure (sqrtFn : ℚ → ℚ) (cfg : List ExcelSkillLevel)
    (lvl : ExcelSkillLevel) (cp : ConceptualProgress) (pp : PracticalProgress)
    (res : List SpreadsheetResult) (dur : ℚ) (f1 f2 : String) :
    (generateExcelAnalytics sqrtFn cfg lvl cp pp res dur f1).overall_feedback = f1 ∧
    ({ generateExcelAnalytics sqrtFn cfg lvl cp pp res dur f1 with
        overall_feedback := "" } =
      { generateExcelAnalytics sqrtFn cfg lvl cp pp res dur f2 with
        overall_feedback := "" }) :=
  ⟨rfl, rfl⟩

/-! ## Theorems: best-practices score (C7) -/

/-- Two formula-input actions one second apart, both entering
`=SUM(A1)`. -/
def c7state : List UserAction :=
  [{ timestamp := 0, type := .formula_input, formula := some "=SUM(A1)" },
   { timestamp := 1000, type := .formula_input, formula := some "=SUM(A1)" }]

/-- A rubric requiring `VLOOKUP` whose optional list contains `SUM`. -/
def c7criteria : TaskEvaluationCriteria :=
  { required_formulas := ["VLOOKUP"], optional_formulas := ["SUM"] }

theorem c7_functions_used : (getFunctionsUsed c7state).1 = ["SUM"] := by decide

theorem c7_avg_time :
    (getEfficiencyMetrics c7state).1.averageTimeBetweenActions = 1000 := by
  have htime : (getTimeSpent c7state).1 = 1000 := by decide
  have hlen : c7state.length = 2 := rfl
  simp only [getEfficiencyMetrics, hlen, htime]
  norm_num

/-- C7 counterexample: the rubric requires `VLOOKUP` and the functions
used are exactly `["SUM"]`, yet the best-practices score is 90, not at
most 80: the optional-formula bonus (`SUM` is in the rubric's optional
list) adds 10 on top of the 100 − 20 missing-required penalty, and no
rushing penalty applies (the average gap is exactly one second). -/
theorem claim_C7_counterexample :
    c7criteria.required_formulas = ["VLOOKUP"] ∧
    (getFunctionsUsed c7state).1 = ["SUM"] ∧
    calculateBestPracticesScore c7state c7criteria = 90 ∧
    ¬ calculateBestPracticesScore c7state c7criteria ≤ 80 := by
  have hscore : calculateBestPracticesScore c7state c7criteria = 90 := by
    simp only [calculateBestPracticesScore, c7_functions_used, c7_avg_time, c7criteria]
    rw [show ((["VLOOKUP"] : List String).filter fun func =>
        !((["SUM"] : List String).contains func)) = ["VLOOKUP"] from by decide]
    rw [show ((["SUM"] : List String).filter fun func =>
        (["SUM"] : List String).contains func) = ["SUM"] from by decide]
    norm_num [min_def, max_def]
  exact ⟨rfl, c7_functions_used, hscore, by rw [hscore]; norm_num⟩

/-- C7 amended: the best-practices score equals 100 minus 20 per
required rubric formula absent from the functions-used set, plus 10 per
optional rubric formula present, minus 10 when the average time between
actions is under one second, clamped to `[0, 100]`; and when the rubric
requires `VLOOKUP`, the functions-used set is exactly `["SUM"]`, and no
optional rubric formula is among the functions used, the score is at
most 80. -/
theorem claim_C7_best_practices (state : List UserAction)
    (criteria : TaskEvaluationCriteria) :
    (calculateBestPracticesScore state criteria =
      max 0 (min 100
        (100 -
          20 * ((criteria.required_formulas.filter fun f =>
              !((getFunctionsUsed state).1.contains f)).length : ℚ) +
          10 * ((criteria.optional_formulas.filter fun f =>
              (getFunctionsUsed state).1.contains f).length : ℚ) -
          (if (getEfficiencyMetrics state).1.averageTimeBetweenActions < 1000
            then 10 else 0)))) ∧
    (criteria.required_formulas = ["VLOOKUP"] →
      (getFunctionsUsed state).1 = ["SUM"] →
      (∀ f ∈ criteria.optional_formulas, ¬ (getFunctionsUsed state).1.contains f) →
      calculateBestPracticesScore state criteria ≤ 80) := by
  have heq : calculateBestPracticesScore state criteria =
      max 0 (min 100
        (100 -
          20 * ((criteria.required_formulas.filter fun f =>
              !((getFunctionsUsed state).1.contains f)).length : ℚ) +
          10 * ((criteria.optional_formulas.filter fun f =>
              (getFunctionsUsed state).1.contains f).length : ℚ) -
          (if (getEfficiencyMetrics state).1.averageTimeBetweenActions < 1000
            then 10 else 0))) := by
    simp only [calculateBestPracticesScore]
    split_ifs <;> ring_nf
  refine ⟨heq, fun h1 h2 h3 => ?_⟩
  rw [heq, h1]
  have hreq : ((["VLOOKUP"] : List String).filter fun f =>
      !((getFunctionsUsed state).1.contains f)).length = 1 := by
    rw [h2]; decide
  have hopt : (criteria.optional_formulas.filter fun f =>
      (getFunctionsUsed state).1.contains f) = [] := by
    rw [List.filter_eq_nil_iff]
    intro f hf
    simpa using h3 f hf
  rw [hreq, hopt]
  split_ifs <;> norm_num [min_def, max_def]

/-- C7 witness: the amended scenario at a concrete input (rubric
requires `VLOOKUP` with an empty optional list, candidate entered
`=SUM(A1)` twice): the score is at most 80. -/
theorem claim_C7_best_practices_witness :
    calculateBestPracticesScore c7state
      { required_formulas := ["VLOOKUP"], optional_formulas := [] } ≤ 80 :=
  (claim_C7_best_practices c7state
      { required_formulas := ["VLOOKUP"], optional_formulas := [] }).2
    rfl c7_functions_used (by simp)

/-! ## Theorems: grid differ rectangle (C3) -/

/-- The claim-side column bound: the true bounding-rectangle width,
maximum length over ALL rows of a grid (the spec's `max(cols)`). -/
def gridMaxCols (g : List (List (Option CellData))) : Nat :=
  (g.map List.length).foldr max 0

/-- The claim-side changed-position set: every position of the claimed
bounding rectangle (max rows × max over all rows of both grids) whose
two slots differ, missing cells treated as empty. -/
def claimChangedPositions (isheet fsheet : SpreadsheetSheet) : List (Nat × Nat) :=
  (List.range (max isheet.data.length fsheet.data.length)).flatMap fun r =>
    (List.range (max (gridMaxCols isheet.data) (gridMaxCols fsheet.data))).filterMap fun c =>
      if cellAt isheet r c ≠ cellAt fsheet r c then some (r, c) else none

def c3isheet : SpreadsheetSheet := ⟨"Sheet1", [[]]⟩
def c3fsheet : SpreadsheetSheet := ⟨"Sheet1", [[], [some { v := some (.num 1) }]]⟩
def c3initial : SpreadsheetData := ⟨[c3isheet]⟩
def c3final : SpreadsheetData := ⟨[c3fsheet]⟩

/-- C3 counterexample: the final grid is jagged (row 1 is longer than
row 0), the claimed bounding rectangle contains position `(1, 0)` whose
slots differ (`undefined` vs a cell), yet the differ records no change
at all — its column bound `max(data[0].length)` is 0 because it looks
only at the FIRST row of each grid. -/
theorem claim_C3_counterexample :
    (compareSpreadsheets c3initial c3final none).changedCells = [] ∧
    claimChangedPositions c3isheet c3fsheet = [(1, 0)] := by
  constructor
  · decide
  · decide

theorem compareSheetChanges_mem (isheet fsheet : SpreadsheetSheet) (ch : CellChange) :
    ch ∈ compareSheetChanges isheet fsheet ↔
      ∃ r c, r < sheetMaxRows isheet fsheet ∧ c < sheetMaxCols isheet fsheet ∧
        cellAt isheet r c ≠ cellAt fsheet r c ∧ ch = changeAt isheet fsheet r c := by
  simp only [compareSheetChanges, List.mem_flatMap, List.mem_filterMap, List.mem_range]
  constructor
  · rintro ⟨r, hr, c, hc, hch⟩
    split at hch
    · exact ⟨r, c, hr, hc, by assumption, (Option.some.inj hch).symm⟩
    · exact absurd hch (by simp)
  · rintro ⟨r, c, hr, hc, hne, rfl⟩
    exact ⟨r, hr, c, hc, by rw [if_pos hne]⟩

theorem compareSpreadsheets_changedCells (initial final : SpreadsheetData)
    (expected : Option SpreadsheetData) :
    (compareSpreadsheets initial final expected).changedCells =
      (comparePairs initial final).flatMap fun p => compareSheetChanges p.1 p.2 := by
  cases expected <;> rfl

theorem comparePairs_mem (initial final : SpreadsheetData)
    (p : SpreadsheetSheet × SpreadsheetSheet) :
    p ∈ comparePairs initial final ↔
      ∃ idx : Nat, initial.sheets[idx]? = some p.1 ∧ final.sheets[idx]? = some p.2 := by
  simp only [comparePairs, List.mem_filterMap, List.mem_range]
  constructor
  · rintro ⟨idx, hidx, hm⟩
    split at hm
    · next a b heq1 heq2 =>
      obtain rfl := Option.some.inj hm
      exact ⟨idx, heq1, heq2⟩
    · exact absurd hm (by simp)
  · rintro ⟨idx, h1, h2⟩
    have hlen : idx < initial.sheets.length := by
      by_contra hge
      rw [List.getElem?_eq_none (by omega)] at h1
      exact absurd h1 (by simp)
    refine ⟨idx, by omega, ?_⟩
    rw [h1, h2]

/-- C3 amended: for every snapshot pair and sheet index present in
both, the differ examines exactly the rectangle
`max(rows) × max(first-row lengths)` — the column bound comes from the
first row of each grid (`data[0]?.length || 0`), NOT from the longest
row — treating missing (out-of-bounds or jagged-row) cells as empty,
and records a changed cell exactly for the examined positions whose
structural value differs. -/
theorem claim_C3_changed (initial final : SpreadsheetData)
    (expected : Option SpreadsheetData) (ch : CellChange) :
    ch ∈ (compareSpreadsheets initial final expected).changedCells ↔
      ∃ (idx : Nat) (isheet fsheet : SpreadsheetSheet) (r c : Nat),
        initial.sheets[idx]? = some isheet ∧ final.sheets[idx]? = some fsheet ∧
        r < sheetMaxRows isheet fsheet ∧ c < sheetMaxCols isheet fsheet ∧
        cellAt isheet r c ≠ cellAt fsheet r c ∧
        ch = changeAt isheet fsheet r c := by
  rw [compareSpreadsheets_changedCells, List.mem_flatMap]
  constructor
  · rintro ⟨p, hp, hch⟩
    obtain ⟨idx, h1, h2⟩ := (comparePairs_mem initial final p).mp hp
    obtain ⟨r, c, hr, hc, hne, rfl⟩ := (compareSheetChanges_mem p.1 p.2 _).mp hch
    exact ⟨idx, p.1, p.2, r, c, h1, h2, hr, hc, hne, rfl⟩
  · rintro ⟨idx, isheet, fsheet, r, c, h1, h2, hr, hc, hne, rfl⟩
    exact ⟨(isheet, fsheet), (comparePairs_mem initial final (isheet, fsheet)).mpr ⟨idx, h1, h2⟩,
      (compareSheetChanges_mem isheet fsheet _).mpr ⟨r, c, hr, hc, hne, rfl⟩⟩

def c3wi : SpreadsheetSheet := ⟨"Sheet1", [[some { v := some (.num 1) }]]⟩
def c3wf : SpreadsheetSheet := ⟨"Sheet1", [[some { v := some (.num 2) }]]⟩

/-- C3 witness: at a concrete one-cell snapshot pair whose single cell
changed, the characterization produces the corresponding change
record. -/
theorem claim_C3_changed_witness :
    changeAt c3wi c3wf 0 0 ∈
      (compareSpreadsheets ⟨[c3wi]⟩ ⟨[c3wf]⟩ none).changedCells :=
  (claim_C3_changed ⟨[c3wi]⟩ ⟨[c3wf]⟩ none _).mpr
    ⟨0, c3wi, c3wf, 0, 0, rfl, rfl, by decide, by decide, by decide, rfl⟩

/-! ## Theorems: accuracy (C1) -/

/-- Claim-side graded cells of one expected row, paired with their
column index: the slots holding a cell with a defined value. -/
def gradedCellsRow : Nat → List (Option CellData) → List (Nat × CellValue)
  | _, [] => []
  | c, ecell :: rest =>
    (match ecell with
     | some cell =>
       match cell.v with
       | some ev => [(c, ev)]
       | none => []
     | none => []) ++ gradedCellsRow (c + 1) rest

/-- Claim-side graded cells of one expected sheet with their `(row,
column)` position. -/
def gradedCellsSheet : Nat → List (List (Option CellData)) → List (Nat × Nat × CellValue)
  | _, [] => []
  | r, row :: rest =>
    ((gradedCellsRow 0 row).map fun p => (r, p.1, p.2)) ++
      gradedCellsSheet (r + 1) rest

/-- A graded cell is correct when the corresponding actual slot holds a
cell (truthy) whose value is exactly equal. -/
def isCorrectCell (asheet : SpreadsheetSheet) (r c : Nat) (ev : CellValue) : Bool :=
  match cellAt asheet r c with
  | some (some acell) => acell.v = some ev
  | _ => false

/-- The graded cells the accuracy loop actually counts: those of
expected sheets whose index is also present in `actual` (the sheet loop
`continue`s when `actual.sheets[i]` is undefined). -/
def gradedCellsPresent (actual : SpreadsheetData) :
    Nat → List SpreadsheetSheet → List (Nat × Nat × Nat × CellValue)
  | _, [] => []
  | si, esheet :: rest =>
    (match actual.sheets[si]? with
     | some _ => (gradedCellsSheet 0 esheet.data).map fun p => (si, p)
     | none => []) ++ gradedCellsPresent actual (si + 1) rest

/-- The claim-side graded cells: EVERY cell of expected with a defined
value, regardless of whether the sheet exists in the final snapshot. -/
def gradedCellsAll : Nat → List SpreadsheetSheet → List (Nat × Nat × Nat × CellValue)
  | _, [] => []
  | si, esheet :: rest =>
    ((gradedCellsSheet 0 esheet.data).map fun p => (si, p)) ++
      gradedCellsAll (si + 1) rest

/-- Correctness of a graded cell against the final snapshot (a missing
sheet means the value is not equal). -/
def correctBool (actual : SpreadsheetData) (q : Nat × Nat × Nat × CellValue) : Bool :=
  match actual.sheets[q.1]? with
  | some asheet => isCorrectCell asheet q.2.1 q.2.2.1 q.2.2.2
  | none => false

/-- The accuracy formula exactly as the claim words it: 100 × correct /
graded over ALL graded cells of expected, 0 when none exist. -/
def claimAccuracy (final expected : SpreadsheetData) : ℚ :=
  let graded := gradedCellsAll 0 expected.sheets
  if graded.length = 0 then 0
  else ((graded.countP (correctBool final) : ℚ) / (graded.length : ℚ)) * 100

theorem accuracyRowCount_eq (asheet : SpreadsheetSheet) (r : Nat) :
    ∀ (row : List (Option CellData)) (c0 : Nat) (acc : Nat × Nat),
      accuracyRowCount asheet r c0 row acc =
        (acc.1 + (gradedCellsRow c0 row).length,
         acc.2 + (gradedCellsRow c0 row).countP fun p => isCorrectCell asheet r p.1 p.2) := by
  intro row
  induction row with
  | nil => intro c0 acc; simp [accuracyRowCount, gradedCellsRow]
  | cons ecell rest ih =>
    intro c0 acc
    simp only [accuracyRowCount, gradedCellsRow]
    cases ecell with
    | none => simp [ih]
    | some cell =>
      cases hv : cell.v with
      | none => simp [ih, hv]
      | some ev =>
        simp only [hv, List.singleton_append, List.length_cons, List.countP_cons, ih]
        rcases hcell : cellAt asheet r c0 with - | mc
        · simp only [hcell, isCorrectCell]
          simp
          omega
        · cases mc with
          | none =>
            simp only [hcell, isCorrectCell]
            simp
            omega
          | some acell =>
            simp only [hcell, isCorrectCell]
            by_cases heq : acell.v = some ev <;> simp [heq] <;> omega

theorem accuracySheetCount_eq (asheet : SpreadsheetSheet) :
    ∀ (rows : List (List (Option CellData))) (r0 : Nat) (acc : Nat × Nat),
      accuracySheetCount asheet r0 rows acc =
        (acc.1 + (gradedCellsSheet r0 rows).length,
         acc.2 + (gradedCellsSheet r0 rows).countP fun p =>
           isCorrectCell asheet p.1 p.2.1 p.2.2) := by
  intro rows
  induction rows with
  | nil => intro r0 acc; simp [accuracySheetCount, gradedCellsSheet]
  | cons row rest ih =>
    intro r0 acc
    simp only [accuracySheetCount, gradedCellsSheet]
    rw [accuracyRowCount_eq, ih]
    simp only [List.length_append, List.countP_append, List.length_map, List.countP_map,
      Prod.mk.injEq]
    refine ⟨by omega, ?_⟩
    have : ((fun p : Nat × Nat × CellValue => isCorrectCell asheet p.1 p.2.1 p.2.2) ∘
        fun p : Nat × CellValue => (r0, p.1, p.2)) =
          fun p : Nat × CellValue => isCorrectCell asheet r0 p.1 p.2 := rfl
    rw [this]
    omega

theorem accuracyCount_eq (actual : SpreadsheetData) :
    ∀ (sheets : List SpreadsheetSheet) (si : Nat) (acc : Nat × Nat),
      accuracyCount actual si sheets acc =
        (acc.1 + (gradedCellsPresent actual si sheets).length,
         acc.2 + (gradedCellsPresent actual si sheets).countP (correctBool actual)) := by
  intro sheets
  induction sheets with
  | nil => intro si acc; simp [accuracyCount, gradedCellsPresent]
  | cons esheet rest ih =>
    intro si acc
    simp only [accuracyCount, gradedCellsPresent]
    cases hget : actual.sheets[si]? with
    | none => simp only [hget, ih]; simp
    | some asheet =>
      simp only [hget]
      rw [accuracySheetCount_eq, ih]
      simp only [List.length_append, List.countP_append, List.length_map, List.countP_map,
        Prod.mk.injEq]
      refine ⟨by omega, ?_⟩
      have : (correctBool actual ∘ fun p : Nat × Nat × CellValue => (si, p)) =
          fun p : Nat × Nat × CellValue => isCorrectCell asheet p.1 p.2.1 p.2.2 := by
        funext p
        simp [correctBool, hget]
      rw [this]
      omega

/-- C1 amended: the accuracy equals 100 × correct / graded where the
graded cells are the cells of `expected` with a defined value LYING IN
SHEETS WHOSE INDEX IS ALSO PRESENT IN THE FINAL SNAPSHOT (an expected
sheet with no corresponding final sheet is skipped entirely, its cells
grading neither way); a graded cell is correct when the corresponding
final cell has an exactly equal value; if no such graded cell exists
the accuracy is 0; and for all snapshot pairs 0 ≤ accuracy ≤ 100. -/
theorem claim_C1_accuracy (actual expected : SpreadsheetData) :
    (calculateAccuracy actual expected =
      (if (gradedCellsPresent actual 0 expected.sheets).length = 0 then 0
       else (((gradedCellsPresent actual 0 expected.sheets).countP (correctBool actual) : ℚ) /
          ((gradedCellsPresent actual 0 expected.sheets).length : ℚ)) * 100)) ∧
    0 ≤ calculateAccuracy actual expected ∧
    calculateAccuracy actual expected ≤ 100 := by
  have hcount := accuracyCount_eq actual expected.sheets 0 (0, 0)
  have hle : (gradedCellsPresent actual 0 expected.sheets).countP (correctBool actual) ≤
      (gradedCellsPresent actual 0 expected.sheets).length :=
    List.countP_le_length _
  have heq : calculateAccuracy actual expected =
      (if (gradedCellsPresent actual 0 expected.sheets).length = 0 then 0
       else (((gradedCellsPresent actual 0 expected.sheets).countP (correctBool actual) : ℚ) /
          ((gradedCellsPresent actual 0 expected.sheets).length : ℚ)) * 100) := by
    unfold calculateAccuracy
    rw [hcount]
    simp only [Nat.zero_add]
    by_cases hz : (gradedCellsPresent actual 0 expected.sheets).length = 0
    · simp [hz]
    · rw [if_neg hz, if_pos (by omega : 0 < (gradedCellsPresent actual 0 expected.sheets).length)]
  refine ⟨heq, ?_, ?_⟩ <;> rw [heq]
  · split_ifs with hz
    · norm_num
    · positivity
  · split_ifs with hz
    · norm_num
    · have hlenpos : (0 : ℚ) < ((gradedCellsPresent actual 0 expected.sheets).length : ℚ) := by
        exact_mod_cast Nat.pos_of_ne_zero hz
      have hc : ((gradedCellsPresent actual 0 expected.sheets).countP (correctBool actual) : ℚ) ≤
          ((gradedCellsPresent actual 0 expected.sheets).length : ℚ) := by
        exact_mod_cast hle
      rw [div_mul_eq_mul_div, div_le_iff₀ hlenpos]
      nlinarith

def c1cell : Option CellData := some { v := some (.num 1) }
def c1expected : SpreadsheetData :=
  ⟨[⟨"Sheet1", [[c1cell]]⟩, ⟨"Sheet2", [[c1cell]]⟩]⟩
def c1final : SpreadsheetData := ⟨[⟨"Sheet1", [[c1cell]]⟩]⟩

/-- C1 counterexample: `expected` has two graded cells (one per sheet)
and `final` matches the first but has no second sheet, so the claim's
formula gives 100 × 1 / 2 = 50; the code skips the missing sheet
entirely (1 graded, 1 correct) and returns 100. -/
theorem claim_C1_counterexample :
    calculateAccuracy c1final c1expected = 100 ∧
    (gradedCellsAll 0 c1expected.sheets).length = 2 ∧
    (gradedCellsAll 0 c1expected.sheets).countP (correctBool c1final) = 1 ∧
    claimAccuracy c1final c1expected = 50 := by
  have hcounts : accuracyCount c1final 0 c1expected.sheets (0, 0) = (1, 1) := by decide
  have hacc : calculateAccuracy c1final c1expected = 100 := by
    unfold calculateAccuracy
    rw [hcounts]
    norm_num
  have hlen : (gradedCellsAll 0 c1expected.sheets).length = 2 := by decide
  have hcp : (gradedCellsAll 0 c1expected.sheets).countP (correctBool c1final) = 1 := by decide
  have hclaim : claimAccuracy c1final c1expected = 50 := by
    unfold claimAccuracy
    simp only [hlen, hcp]
    norm_num
  exact ⟨hacc, hlen, hcp, hclaim⟩
